import Mathlib

/-!  Verification of serf's Secure Transport TLS bucket adapter
     (buckets/sectrans_buckets.c).

The C file bridges serf's pull-based bucket streams to the callback-driven
Secure Transport engine.  The engine itself (SSLHandshake, SSLRead, SSLWrite,
SecTrustEvaluate, the GUI trust panel) is an external collaborator; each of its
calls is modelled by an oracle value (the status it returned and the bytes it
pushed through the I/O callbacks), and the adapter's control flow over those
oracles is translated statement by statement from the C source.  Byte buffers
are `List Nat`; `apr_status_t` and `OSStatus` are finite inductives covering
the codes the file manipulates.
-/

/-- Status codes of type `apr_status_t` used by sectrans_buckets.c:
`success` = APR_SUCCESS, `eagain` = APR_EAGAIN, `eof` = APR_EOF,
`enotimpl` = APR_ENOTIMPL, `egeneral` = APR_EGENERAL,
`waitConn` = SERF_ERROR_WAIT_CONN,
`certFailed` = SERF_ERROR_SSL_CERT_FAILED,
`cantConfirm` = SERF_ERROR_SSL_CANT_CONFIRM_CERT,
`userDenied` = SERF_ERROR_SSL_USER_DENIED_CERT,
`keychainDenied` = SERF_ERROR_SSL_KEYCHAIN_DENIED_CERT. -/
inductive apr_status_t where
  | success
  | eagain
  | eof
  | enotimpl
  | egeneral
  | waitConn
  | certFailed
  | cantConfirm
  | userDenied
  | keychainDenied
deriving DecidableEq, Repr

/-- Secure Transport `OSStatus` values distinguished by the C file; every
other engine status is `errOther` with its numeric code. -/
inductive OSStatus where
  | noErr
  | errSSLWouldBlock
  | errSSLServerAuthCompleted
  | errSSLClientCertRequested
  | errOther (code : Int)
deriving DecidableEq, Repr

/-- Modelled from the spec: serf.h's SERF_BUCKET_READ_ERROR macro (serf.h is
not part of the extracted sources).  Per the spec's error taxonomy (§7),
would-block, end-of-stream and the wait-connection pause are not fatal; every
other nonzero status is a fatal read error. -/
def SERF_BUCKET_READ_ERROR (s : apr_status_t) : Bool :=
  !(s = .success) && !(s = .eof) && !(s = .eagain) && !(s = .waitConn)

/-- translate_sectrans_status (sectrans_buckets.c:88-102): noErr maps to
APR_SUCCESS, errSSLWouldBlock to APR_EAGAIN, anything else to APR_EGENERAL. -/
def translate_sectrans_status : OSStatus → apr_status_t
  | .noErr => .success
  | .errSSLWouldBlock => .eagain
  | _ => .egeneral

/-- pending_stream_eof (sectrans_buckets.c:107-113): the eof callback of both
pending stream buckets always answers APR_EAGAIN so the streams stay open for
the engine to append to. -/
def pending_stream_eof : apr_status_t := .eagain

/-- Modelled from the spec: the read operation of a pending stream bucket
(serf__bucket_stream_create in serf's generic bucket code, not among the
extracted sources).  It hands out a prefix of the queued bytes, at most the
requested count; when the queue is empty, or this read drains it, the
configured eof callback (`pending_stream_eof`) supplies the status, otherwise
the read reports success. -/
def pendingRead (requested : Nat) (buf : List Nat) :
    apr_status_t × List Nat × List Nat :=
  if buf.isEmpty then
    (pending_stream_eof, [], buf)
  else
    let chunk := buf.take requested
    let rest := buf.drop requested
    ((if rest.isEmpty then pending_stream_eof else .success), chunk, rest)

/-- The three supported certificate-validation mode bits
(serf_ssl_cert_validation_mode_t). -/
structure ValModes where
  serf_managed_with_gui : Bool
  serf_managed_no_gui : Bool
  application_managed : Bool
deriving DecidableEq, Repr

/-- The SERF_SSL_CERT_* failure bits assigned by
validate_server_certificate's switch on the trust result. -/
structure CertFailures where
  allOk : Bool := false
  confirmNeeded : Bool := false
  recoverable : Bool := false
  unknownFailure : Bool := false
  fatal : Bool := false
deriving DecidableEq, Repr

/-- The C test `failures` (nonzero bitmask). -/
def CertFailures.nonzero (f : CertFailures) : Bool :=
  f.allOk || f.confirmNeeded || f.recoverable || f.unknownFailure || f.fatal

/-- SecTrustResultType values distinguished by validate_server_certificate;
`unknownOther` stands for the switch's default case. -/
inductive SecTrustResultType where
  | unspecified
  | proceed
  | confirm
  | recoverableTrustFailure
  | invalid
  | deny
  | fatalTrustFailure
  | otherError
  | unknownOther
deriving DecidableEq, Repr

/-- ask_approval_gui (sectrans_buckets.c:260-300): the outcome of the modal
trust panel, an external GUI collaborator, is the user's click; Accept yields
APR_SUCCESS, Cancel yields SERF_ERROR_SSL_USER_DENIED_CERT. -/
def ask_approval_gui (accepted : Bool) : apr_status_t :=
  if accepted then .success else .userDenied

/-- Oracle values for one run of validate_server_certificate: the statuses of
the three engine calls (SSLCopyPeerCertificates, SSLCopyPeerTrust,
SecTrustEvaluate), the trust-evaluation result, the user's click should the
GUI panel be shown, and the application callback's return should it be
invoked. -/
structure ValidateEnv where
  copyCertsStatus : OSStatus
  copyTrustStatus : OSStatus
  evaluateStatus : OSStatus
  trustResult : SecTrustResultType
  guiAccepted : Bool
  appCbResult : apr_status_t
deriving DecidableEq, Repr

/-- validate_server_certificate (sectrans_buckets.c:306-451), translated
branch for branch.  `m` and `hasCallback` are the context's validation-mode
bitmask and whether a server_cert_callback is registered.  The C `status`
local is left uninitialized by the confirm/recoverable switch cases; on those
paths it is always assigned before cleanup (by the GUI call, the cantConfirm
assignment followed by the callback or the final certFailed assignment), so
the placeholder used here is never returned. -/
def validate_server_certificate (m : ValModes) (hasCallback : Bool)
    (e : ValidateEnv) : apr_status_t :=
  if e.copyCertsStatus ≠ .noErr then
    translate_sectrans_status e.copyCertsStatus
  else if e.copyTrustStatus ≠ .noErr then
    translate_sectrans_status e.copyTrustStatus
  else if e.evaluateStatus ≠ .noErr then
    translate_sectrans_status e.evaluateStatus
  else
    let failures : CertFailures :=
      match e.trustResult with
      | .unspecified | .proceed => { allOk := true }
      | .confirm => { confirmNeeded := true, recoverable := true }
      | .recoverableTrustFailure => { unknownFailure := true, recoverable := true }
      | _ => { fatal := true }
    let status0 : apr_status_t :=
      match e.trustResult with
      | .unspecified | .proceed => .success
      | .confirm | .recoverableTrustFailure => .success
      | .deny => .keychainDenied
      | _ => .certFailed
    if (failures.confirmNeeded || failures.recoverable) &&
        m.serf_managed_with_gui then
      ask_approval_gui e.guiAccepted
    else
      let status1 :=
        if failures.confirmNeeded || failures.recoverable then
          apr_status_t.cantConfirm
        else status0
      if (failures.allOk || failures.fatal) &&
          (m.serf_managed_with_gui || m.serf_managed_no_gui) then
        status1
      else if m.application_managed && hasCallback && failures.nonzero then
        e.appCbResult
      else
        .certFailed

/-- Oracle values for one run of do_handshake: SSLHandshake's status and, if
it breaks on server auth, the environment of the validation it triggers. -/
structure HandshakeEnv where
  sslHandshakeStatus : OSStatus
  validateEnv : ValidateEnv
deriving DecidableEq, Repr

/-- do_handshake (sectrans_buckets.c:454-485): noErr means the handshake
finished; errSSLServerAuthCompleted triggers certificate validation, a
success there is reported as APR_EAGAIN so the caller re-drives the engine;
errSSLClientCertRequested is unimplemented; everything else is translated
generically. -/
def do_handshake (m : ValModes) (hasCallback : Bool) (e : HandshakeEnv) :
    apr_status_t :=
  match e.sslHandshakeStatus with
  | .noErr => .success
  | .errSSLServerAuthCompleted =>
    let status := validate_server_certificate m hasCallback e.validateEnv
    if status = .success then .eagain else status
  | .errSSLClientCertRequested => .enotimpl
  | s => translate_sectrans_status s

/-- The session states of sectrans_session_state_t
(sectrans_buckets.c:51-56). -/
inductive sectrans_session_state_t where
  | INIT
  | HANDSHAKE
  | CONNECTED
  | CLOSING
deriving DecidableEq, Repr

/-- Position of a state along the INIT → HANDSHAKE → CONNECTED (→ CLOSING)
lifecycle, for stating that reads never move the state backward. -/
def stateRank : sectrans_session_state_t → Nat
  | .INIT => 0
  | .HANDSHAKE => 1
  | .CONNECTED => 2
  | .CLOSING => 3

/-- sectrans_context_t (sectrans_buckets.c:58-86), the fields the verified
operations touch: the reference count, the validation-mode bitmask, the
session state, the two pending buffers, and whether a server certificate
callback is registered.  The engine handle, allocator, hostname and the
external source/sink stream references are collaborator state outside the
model. -/
structure sectrans_context_t where
  refcount : Int
  modes : ValModes
  state : sectrans_session_state_t
  encrypt_pending : List Nat
  decrypt_pending : List Nat
  server_cert_callback : Bool
deriving DecidableEq, Repr

/-- sectrans_init_context (sectrans_buckets.c:115-160), happy path: refcount
0, default mode serf-managed without GUI, both pending buffers empty (built
with `pending_stream_eof` as their eof callback), state INIT, no callback. -/
def sectrans_init_context : sectrans_context_t :=
  { refcount := 0
    modes := { serf_managed_with_gui := false
               serf_managed_no_gui := true
               application_managed := false }
    state := .INIT
    encrypt_pending := []
    decrypt_pending := []
    server_cert_callback := false }

/-- decrypt_create (sectrans_buckets.c:490-511): reuse the supplied context
or initialize a fresh one, then increment its reference count.  The stream
and allocator assignments concern collaborator state. -/
def decrypt_create (impl_ctx : Option sectrans_context_t) :
    sectrans_context_t :=
  let c := match impl_ctx with
    | some c => c
    | none => sectrans_init_context
  { c with refcount := c.refcount + 1 }

/-- encrypt_create (sectrans_buckets.c:513-534): same reference-count
discipline as decrypt_create. -/
def encrypt_create (impl_ctx : Option sectrans_context_t) :
    sectrans_context_t :=
  let c := match impl_ctx with
    | some c => c
    | none => sectrans_init_context
  { c with refcount := c.refcount + 1 }

/-- serf_sectrans_encrypt_destroy_and_data (sectrans_buckets.c:1015-1025):
`if (!--refcount) free`.  Returns the context after the decrement and whether
the engine handle and context memory were disposed. -/
def serf_sectrans_encrypt_destroy_and_data (c : sectrans_context_t) :
    sectrans_context_t × Bool :=
  let c' := { c with refcount := c.refcount - 1 }
  (c', c'.refcount = 0)

/-- serf_sectrans_decrypt_destroy_and_data (sectrans_buckets.c:1158-1168):
identical to the encrypt-side destructor. -/
def serf_sectrans_decrypt_destroy_and_data (c : sectrans_context_t) :
    sectrans_context_t × Bool :=
  let c' := { c with refcount := c.refcount - 1 }
  (c', c'.refcount = 0)

/-- client_cert_provider_set (sectrans_buckets.c:549-556): a no-op; the
callback, its data and the cache pool are ignored and nothing is stored. -/
def client_cert_provider_set (c : sectrans_context_t)
    (callback data cache_pool : Nat) : sectrans_context_t :=
  c

/-- client_cert_password_set (sectrans_buckets.c:559-570): ors
application-managed into the validation-mode bitmask; the callback, its data
and the cache pool are ignored and nothing is stored. -/
def client_cert_password_set (c : sectrans_context_t)
    (callback data cache_pool : Nat) : sectrans_context_t :=
  { c with modes := { c.modes with application_managed := true } }

/-- sectrans_read_cb (sectrans_buckets.c:185-229): the engine's pull
callback.  `trace` lists the successive results of serf_bucket_read on the
incoming-ciphertext source stream (status and bytes, each call returning at
most the bytes still requested); the loop copies chunks at increasing offsets
and decrements the requested count until it is met or the source reports
non-success.  A fatal read error returns engine status -1 with the bytes
copied so far; after the loop, APR_EAGAIN becomes errSSLWouldBlock, zero
becomes noErr, and any other status becomes -1.  `none` when the trace is too
short for the loop to finish. -/
def sectrans_read_cb_loop :
    List (apr_status_t × List Nat) → Nat → List Nat →
    Option (OSStatus × List Nat)
  | _, 0, acc => some (.noErr, acc)
  | [], _ + 1, _ => none
  | (st, buf) :: rest, r + 1, acc =>
    if SERF_BUCKET_READ_ERROR st then
      some (.errOther (-1), acc)
    else if st = .success then
      sectrans_read_cb_loop rest (r + 1 - buf.length) (acc ++ buf)
    else
      some ((if st = .eagain then .errSSLWouldBlock else .errOther (-1)),
            acc ++ buf)

/-- sectrans_read_cb's entry: *dataLength starts at 0 and the loop runs on
the full requested count. -/
def sectrans_read_cb (trace : List (apr_status_t × List Nat))
    (requested : Nat) : Option (OSStatus × List Nat) :=
  sectrans_read_cb_loop trace requested []

/-- decrypt_more_data (sectrans_buckets.c:1042-1075): one SSLRead call,
modelled by its oracle outcome `resp` (engine status, decrypted bytes).  The
status is translated; a fatal error returns at once without touching the
pending buffer, otherwise the decrypted bytes are appended to it. -/
def decrypt_more_data (resp : OSStatus × List Nat) (pending : List Nat) :
    apr_status_t × List Nat :=
  let status := translate_sectrans_status resp.1
  if SERF_BUCKET_READ_ERROR status then
    (status, pending)
  else
    (status, pending ++ resp.2)

/-- The do/while loop of serf_sectrans_decrypt_read (1099-1104): repeat
decrypt_more_data while it returns APR_SUCCESS; a fatal error returns at
once, any other status ends the loop.  `none` when the oracle trace is
exhausted while the loop still wants another engine call. -/
def decrypt_loop :
    List (OSStatus × List Nat) → List Nat →
    Option (apr_status_t × List Nat)
  | [], _ => none
  | resp :: rest, pending =>
    let r := decrypt_more_data resp pending
    if SERF_BUCKET_READ_ERROR r.1 then
      some r
    else if r.1 = .success then
      decrypt_loop rest r.2
    else
      some r

/-- serf_sectrans_decrypt_read (sectrans_buckets.c:1077-1109): serve the
pending plaintext buffer first and return at once when it yields bytes;
otherwise run the decrypt loop and, unless it failed fatally, return the
result of re-reading the pending buffer.  Result: status, bytes handed to the
caller, remaining pending buffer. -/
def serf_sectrans_decrypt_read (trace : List (OSStatus × List Nat))
    (requested : Nat) (pending : List Nat) :
    Option (apr_status_t × List Nat × List Nat) :=
  let r1 := pendingRead requested pending
  if SERF_BUCKET_READ_ERROR r1.1 then
    some r1
  else if r1.2.1 ≠ [] then
    some r1
  else
    match decrypt_loop trace r1.2.2 with
    | none => none
    | some (lst, pending2) =>
      if SERF_BUCKET_READ_ERROR lst then
        some (lst, [], pending2)
      else
        some (pendingRead requested pending2)

/-- Oracle values for one run of serf_sectrans_encrypt_read: SSLHandshake's
outcome (engine status, validation environment, ciphertext the handshake
pushed through the write callback into the pending buffer), the result of
reading the outgoing-plaintext source stream, and SSLWrite's outcome (engine
status, ciphertext it pushed through the write callback). -/
structure EncryptEnv where
  hsEngine : OSStatus
  hsValidate : ValidateEnv
  hsWritten : List Nat
  streamRead : apr_status_t × List Nat
  sslWrite : OSStatus × List Nat
deriving DecidableEq, Repr

/-- The CONNECTED (and CLOSING) part of serf_sectrans_encrypt_read
(sectrans_buckets.c:939-991): serve the pending ciphertext buffer, mapping
any nonempty yield to APR_SUCCESS; on an empty yield read the plaintext
source, and when it produced bytes run SSLWrite (whose write callback appends
ciphertext to the pending buffer before its status is examined), then serve
the refilled pending buffer, returning the source stream's status when that
final read did not report success. -/
def encrypt_read_connected (env : EncryptEnv) (requested : Nat)
    (c : sectrans_context_t) :
    apr_status_t × List Nat × sectrans_context_t :=
  let r1 := pendingRead requested c.encrypt_pending
  let c1 := { c with encrypt_pending := r1.2.2 }
  if SERF_BUCKET_READ_ERROR r1.1 then
    (r1.1, r1.2.1, c1)
  else if r1.2.1 ≠ [] then
    (.success, r1.2.1, c1)
  else
    let ust := env.streamRead.1
    if SERF_BUCKET_READ_ERROR ust then
      (ust, [], c1)
    else if env.streamRead.2 ≠ [] then
      let wst := translate_sectrans_status env.sslWrite.1
      let c2 := { c1 with encrypt_pending := c1.encrypt_pending ++ env.sslWrite.2 }
      if SERF_BUCKET_READ_ERROR wst then
        (wst, [], c2)
      else
        let r2 := pendingRead requested c2.encrypt_pending
        let c3 := { c2 with encrypt_pending := r2.2.2 }
        if SERF_BUCKET_READ_ERROR r2.1 then
          (r2.1, r2.2.1, c3)
        else if r2.1 = .success then
          (.success, r2.2.1, c3)
        else
          (ust, r2.2.1, c3)
    else
      (ust, [], c1)

/-- serf_sectrans_encrypt_read (sectrans_buckets.c:905-991).  In INIT or
HANDSHAKE the state is set to HANDSHAKE and do_handshake is driven (any
ciphertext it pushed through the write callback lands in the pending buffer):
a fatal error is propagated, success moves the state to CONNECTED and
continues with the connected path, and any other status returns a read of the
pending buffer.  Otherwise the connected path runs directly. -/
def serf_sectrans_encrypt_read (env : EncryptEnv) (requested : Nat)
    (c : sectrans_context_t) :
    apr_status_t × List Nat × sectrans_context_t :=
  if c.state = .INIT ∨ c.state = .HANDSHAKE then
    let c1 := { c with state := sectrans_session_state_t.HANDSHAKE }
    let status := do_handshake c1.modes c1.server_cert_callback
      { sslHandshakeStatus := env.hsEngine, validateEnv := env.hsValidate }
    let c2 := { c1 with encrypt_pending := c1.encrypt_pending ++ env.hsWritten }
    if SERF_BUCKET_READ_ERROR status then
      (status, [], c2)
    else if status = .success then
      encrypt_read_connected env requested
        { c2 with state := sectrans_session_state_t.CONNECTED }
    else
      let r := pendingRead requested c2.encrypt_pending
      (r.1, r.2.1, { c2 with encrypt_pending := r.2.2 })
  else
    encrypt_read_connected env requested c

/-!  Shared lemmas about the pending buffer and the engine loops. -/

/-- An empty pending buffer answers would-block with no bytes. -/
theorem pendingRead_nil (requested : Nat) :
    pendingRead requested [] = (.eagain, [], []) := by
  simp [pendingRead, pending_stream_eof]

/-- A nonempty pending buffer hands out its prefix; the status comes from the
eof callback exactly when the read drains it. -/
theorem pendingRead_ne_nil (requested : Nat) (buf : List Nat) (hb : buf ≠ []) :
    pendingRead requested buf =
      ((if (buf.drop requested).isEmpty then .eagain else .success),
       buf.take requested, buf.drop requested) := by
  simp [pendingRead, pending_stream_eof, hb]

/-- The pending buffer's read status is never a fatal read error. -/
theorem pendingRead_not_error (requested : Nat) (buf : List Nat) :
    SERF_BUCKET_READ_ERROR (pendingRead requested buf).1 = false := by
  by_cases hb : buf = []
  · subst hb
    rw [pendingRead_nil]
    rfl
  · rw [pendingRead_ne_nil requested buf hb]
    by_cases hd : (buf.drop requested).isEmpty <;>
      simp [hd, SERF_BUCKET_READ_ERROR]

/-- With a positive request, a nonempty pending buffer yields bytes. -/
theorem pendingRead_data_ne_nil (requested : Nat) (buf : List Nat)
    (hb : buf ≠ []) (hr : 0 < requested) :
    (pendingRead requested buf).2.1 ≠ [] := by
  rw [pendingRead_ne_nil requested buf hb]
  simp [List.take_eq_nil_iff, hb]
  omega

/-- The pending buffer's read status is would-block or success. -/
theorem pendingRead_fst (requested : Nat) (buf : List Nat) :
    (pendingRead requested buf).1 = .eagain ∨
      (pendingRead requested buf).1 = .success := by
  by_cases hb : buf = []
  · subst hb
    rw [pendingRead_nil]
    left
    rfl
  · rw [pendingRead_ne_nil requested buf hb]
    by_cases hd : (buf.drop requested).isEmpty <;> simp [hd]

/-- A successful SSLRead appends its bytes and keeps the decrypt loop
going: a prefix of success iterations folds into one append. -/
theorem decrypt_loop_success_run (bss : List (List Nat))
    (rest : List (OSStatus × List Nat)) (p : List Nat) :
    decrypt_loop ((bss.map fun b => (OSStatus.noErr, b)) ++ rest) p
      = decrypt_loop rest (p ++ bss.flatten) := by
  induction bss generalizing p with
  | nil => simp
  | cons b bs ih =>
    simp only [List.map_cons, List.cons_append, decrypt_loop,
      decrypt_more_data, translate_sectrans_status, SERF_BUCKET_READ_ERROR]
    simp [ih, List.append_assoc]

/-- A fatal SSLRead status ends the decrypt loop at once: the pending buffer
is left as it was and the rest of the trace is never consulted. -/
theorem decrypt_loop_error (oss : OSStatus) (bs : List Nat)
    (rest : List (OSStatus × List Nat)) (p : List Nat)
    (h : SERF_BUCKET_READ_ERROR (translate_sectrans_status oss) = true) :
    decrypt_loop ((oss, bs) :: rest) p
      = some (translate_sectrans_status oss, p) := by
  simp [decrypt_loop, decrypt_more_data, h]

/-- A would-block SSLRead status ends the decrypt loop after appending the
bytes that iteration still produced. -/
theorem decrypt_loop_eagain (bs : List Nat)
    (rest : List (OSStatus × List Nat)) (p : List Nat) :
    decrypt_loop ((OSStatus.errSSLWouldBlock, bs) :: rest) p
      = some (.eagain, p ++ bs) := by
  simp [decrypt_loop, decrypt_more_data, translate_sectrans_status,
    SERF_BUCKET_READ_ERROR]

/-!  The claim theorems. -/

/-- C2: when SSLHandshake reports errSSLServerAuthCompleted, do_handshake
invokes the certificate validation policy engine; a validation success is
reported as would-block (APR_EAGAIN) so the caller retries and the engine
resumes on the next call, and any other validation result is returned as the
result of the handshake call. -/
theorem do_handshake_server_auth_spec (m : ValModes) (hasCallback : Bool)
    (e : ValidateEnv) :
    do_handshake m hasCallback
        { sslHandshakeStatus := .errSSLServerAuthCompleted, validateEnv := e }
      = if validate_server_certificate m hasCallback e = .success then
          .eagain
        else
          validate_server_certificate m hasCallback e := by
  rfl

/-- C7: the context's reference count starts at 0, each adapter creation
increments it by exactly one, each adapter destruction decrements it by
exactly one and disposes the engine handle and context memory exactly when
the count reaches 0; creating both adapters on one context and destroying one
of them leaves the context alive (count 1) for the other, and destroying the
second disposes it. -/
theorem refcount_lifecycle_spec :
    sectrans_init_context.refcount = 0
  ∧ (∀ c : sectrans_context_t,
      (decrypt_create (some c)).refcount = c.refcount + 1)
  ∧ (∀ c : sectrans_context_t,
      (encrypt_create (some c)).refcount = c.refcount + 1)
  ∧ (decrypt_create none).refcount = 1
  ∧ (encrypt_create none).refcount = 1
  ∧ (∀ c : sectrans_context_t,
      (serf_sectrans_encrypt_destroy_and_data c).1.refcount = c.refcount - 1)
  ∧ (∀ c : sectrans_context_t,
      (serf_sectrans_decrypt_destroy_and_data c).1.refcount = c.refcount - 1)
  ∧ (∀ c : sectrans_context_t,
      ((serf_sectrans_encrypt_destroy_and_data c).2 = true ↔ c.refcount = 1))
  ∧ (∀ c : sectrans_context_t,
      ((serf_sectrans_decrypt_destroy_and_data c).2 = true ↔ c.refcount = 1))
  ∧ (serf_sectrans_encrypt_destroy_and_data
      (encrypt_create (some (decrypt_create none)))).2 = false
  ∧ (serf_sectrans_encrypt_destroy_and_data
      (encrypt_create (some (decrypt_create none)))).1.refcount = 1
  ∧ (serf_sectrans_decrypt_destroy_and_data
      (serf_sectrans_encrypt_destroy_and_data
        (encrypt_create (some (decrypt_create none)))).1).2 = true := by
  refine ⟨rfl, fun c => rfl, fun c => rfl, rfl, rfl, fun c => rfl, fun c => rfl,
    ?_, ?_, by decide, by decide, by decide⟩ <;>
  · intro c
    simp [serf_sectrans_encrypt_destroy_and_data,
      serf_sectrans_decrypt_destroy_and_data]
    omega

/-- C8: the pending buffers never signal end-of-stream: their eof callback
always answers would-block, a read never carries the end-of-stream status
whatever the buffer holds, and an empty buffer reports would-block with no
bytes. -/
theorem pending_buffer_never_eof :
    pending_stream_eof = apr_status_t.eagain
  ∧ (∀ (requested : Nat) (buf : List Nat),
      (pendingRead requested buf).1 ≠ .eof)
  ∧ (∀ requested : Nat, pendingRead requested [] = (.eagain, [], [])) := by
  refine ⟨rfl, fun requested buf => ?_, fun requested => pendingRead_nil _⟩
  rcases pendingRead_fst requested buf with h | h <;> simp [h]

/-- C10: registering a client-certificate password callback ors
application-managed into the validation-mode bitmask, keeping the modes
already set, while storing neither the callback nor its data (the result does
not depend on them and no other context field changes); registering a
client-certificate provider is a no-op that stores nothing. -/
theorem client_cert_callbacks_spec (c : sectrans_context_t)
    (cb data pool cb' data' pool' : Nat) :
    client_cert_provider_set c cb data pool = c
  ∧ (client_cert_password_set c cb data pool).modes
      = { c.modes with application_managed := true }
  ∧ client_cert_password_set c cb data pool
      = client_cert_password_set c cb' data' pool'
  ∧ { client_cert_password_set c cb data pool with modes := c.modes } = c := by
  refine ⟨rfl, rfl, rfl, rfl⟩

/-- The C1 scenario's validation environment: every engine setup call
succeeds, trust evaluation answers kSecTrustResultConfirm.  The GUI and
application-callback oracle fields are irrelevant here (neither is
invoked). -/
def confirmValidateEnv : ValidateEnv :=
  { copyCertsStatus := .noErr
    copyTrustStatus := .noErr
    evaluateStatus := .noErr
    trustResult := .confirm
    guiAccepted := true
    appCbResult := .success }

/-- The C1 scenario's encrypt-read environment: SSLHandshake breaks on
server auth, triggering validation in `confirmValidateEnv`; no handshake
bytes, a quiet plaintext source. -/
def confirmEncryptEnv : EncryptEnv :=
  { hsEngine := .errSSLServerAuthCompleted
    hsValidate := confirmValidateEnv
    hsWritten := []
    streamRead := (.eagain, [])
    sslWrite := (.noErr, []) }

/-- C1: with the validation-mode bitmask exactly serf-managed-no-gui (the
freshly initialized context's default) and no application callback, a trust
result of confirm makes validate_server_certificate return the GENERIC
certificate failure SERF_ERROR_SSL_CERT_FAILED, not the specific
SERF_ERROR_SSL_CANT_CONFIRM_CERT the claim states: the C function assigns
cantConfirm (line 403) but, lacking a goto cleanup, falls through to the
final else (line 444) which overwrites it.  A read on the encrypt adapter
propagates that generic failure as a fatal error and leaves the state in
HANDSHAKE, short of CONNECTED (that half of the claim holds). -/
theorem encrypt_read_confirm_no_gui_returns_generic_failure :
    validate_server_certificate sectrans_init_context.modes false
        confirmValidateEnv = .certFailed
  ∧ apr_status_t.certFailed ≠ apr_status_t.cantConfirm
  ∧ (serf_sectrans_encrypt_read confirmEncryptEnv 5 sectrans_init_context).1
      = .certFailed
  ∧ SERF_BUCKET_READ_ERROR
      (serf_sectrans_encrypt_read confirmEncryptEnv 5 sectrans_init_context).1
      = true
  ∧ (serf_sectrans_encrypt_read confirmEncryptEnv 5
        sectrans_init_context).2.2.state = .HANDSHAKE := by
  refine ⟨rfl, by decide, rfl, rfl, rfl⟩

/-- The C9 counterexample's encrypt-read environment: SSLHandshake reports
would-block after pushing three ciphertext bytes through the write
callback. -/
def handshakeBytesEnv : EncryptEnv :=
  { hsEngine := .errSSLWouldBlock
    hsValidate := confirmValidateEnv
    hsWritten := [1, 2, 3]
    streamRead := (.eagain, [])
    sslWrite := (.noErr, []) }

/-- A context already in the HANDSHAKE state. -/
def handshakeCtx : sectrans_context_t :=
  { sectrans_init_context with state := .HANDSHAKE }

/-- C9 counterexample: a read on the encrypt adapter in the HANDSHAKE state
that neither advances the state (it stays HANDSHAKE) nor returns would-block
nor a fatal error — it returns APR_SUCCESS with two of the ciphertext bytes
the pending handshake pushed into the pending buffer.  This refutes the
claim's enumeration of per-read outcomes. -/
theorem encrypt_read_handshake_success_bytes_cex :
    handshakeCtx.state = .HANDSHAKE
  ∧ (serf_sectrans_encrypt_read handshakeBytesEnv 2 handshakeCtx).2.2.state
      = .HANDSHAKE
  ∧ (serf_sectrans_encrypt_read handshakeBytesEnv 2 handshakeCtx).1
      = .success
  ∧ (serf_sectrans_encrypt_read handshakeBytesEnv 2 handshakeCtx).2.1
      = [1, 2]
  ∧ apr_status_t.success ≠ apr_status_t.eagain
  ∧ SERF_BUCKET_READ_ERROR apr_status_t.success = false := by
  refine ⟨rfl, rfl, rfl, rfl, by decide, rfl⟩

/-- C3: a decrypt-adapter read serves a nonempty pending plaintext buffer
at once, independently of the engine trace (decrypt_more_data is never
invoked); with an empty buffer the decrypt loop runs: a trace of success
iterations followed by a fatal status returns that fatal status at once —
whatever follows it is never consulted and the bytes of the successful
iterations stay queued — and a trace of success iterations ended by a
would-block status re-reads the pending buffer now holding every appended
byte and returns that result. -/
theorem serf_sectrans_decrypt_read_spec :
    (∀ (pending : List Nat) (trace : List (OSStatus × List Nat))
        (requested : Nat), pending ≠ [] → 0 < requested →
      serf_sectrans_decrypt_read trace requested pending
        = some (pendingRead requested pending))
  ∧ (∀ (bss : List (List Nat)) (oss : OSStatus) (bs : List Nat)
        (rest : List (OSStatus × List Nat)) (requested : Nat),
      SERF_BUCKET_READ_ERROR (translate_sectrans_status oss) = true →
      serf_sectrans_decrypt_read
          ((bss.map fun b => (OSStatus.noErr, b)) ++ (oss, bs) :: rest)
          requested []
        = some (translate_sectrans_status oss, [], bss.flatten))
  ∧ (∀ (bss : List (List Nat)) (bs : List Nat) (requested : Nat),
      serf_sectrans_decrypt_read
          ((bss.map fun b => (OSStatus.noErr, b))
            ++ [(OSStatus.errSSLWouldBlock, bs)])
          requested []
        = some (pendingRead requested (bss.flatten ++ bs))) := by
  refine ⟨fun pending trace requested hp hr => ?_,
    fun bss oss bs rest requested herr => ?_,
    fun bss bs requested => ?_⟩
  · have h1 := pendingRead_not_error requested pending
    have h2 := pendingRead_data_ne_nil requested pending hp hr
    simp [serf_sectrans_decrypt_read, h1, h2]
  · have hloop : decrypt_loop
        ((bss.map fun b => (OSStatus.noErr, b)) ++ (oss, bs) :: rest) []
          = some (translate_sectrans_status oss, bss.flatten) := by
      rw [decrypt_loop_success_run, decrypt_loop_error _ _ _ _ herr,
        List.nil_append]
    have heag : SERF_BUCKET_READ_ERROR .eagain = false := rfl
    simp [serf_sectrans_decrypt_read, pendingRead_nil, hloop, herr, heag]
  · have hloop : decrypt_loop
        ((bss.map fun b => (OSStatus.noErr, b))
          ++ [(OSStatus.errSSLWouldBlock, bs)]) []
          = some (.eagain, bss.flatten ++ bs) := by
      rw [decrypt_loop_success_run, decrypt_loop_eagain, List.nil_append]
    have heag : SERF_BUCKET_READ_ERROR .eagain = false := rfl
    simp [serf_sectrans_decrypt_read, pendingRead_nil, hloop, heag]

/-- C3, instantiated: a nonempty pending buffer is served without touching
the trace; a fatal first iteration aborts at once; one success iteration
then would-block refills and re-reads the buffer. -/
theorem serf_sectrans_decrypt_read_spec_witness :
    serf_sectrans_decrypt_read [(OSStatus.errOther 1, [4])] 5 [7, 7]
        = some (pendingRead 5 [7, 7])
  ∧ serf_sectrans_decrypt_read
        [(OSStatus.errOther 1, [9]), (OSStatus.noErr, [1])] 5 []
      = some (translate_sectrans_status (OSStatus.errOther 1), [], [])
  ∧ serf_sectrans_decrypt_read
        [(OSStatus.noErr, [1]), (OSStatus.errSSLWouldBlock, [2])] 5 []
      = some (pendingRead 5 [1, 2]) :=
  ⟨serf_sectrans_decrypt_read_spec.1 [7, 7] [(OSStatus.errOther 1, [4])] 5
      (by decide) (by decide),
   serf_sectrans_decrypt_read_spec.2.1 [] (OSStatus.errOther 1) [9]
      [(OSStatus.noErr, [1])] 5 (by decide),
   serf_sectrans_decrypt_read_spec.2.2 [[1]] [2] 5⟩

/-- A run of success reads whose chunks exactly meet the requested count
drives the callback loop to completion: the chunks land in the caller's
buffer in order at increasing offsets and the loop reports noErr. -/
theorem sectrans_read_cb_loop_success (bss : List (List Nat))
    (acc : List Nat) :
    sectrans_read_cb_loop (bss.map fun b => (apr_status_t.success, b))
        bss.flatten.length acc
      = some (.noErr, acc ++ bss.flatten) := by
  induction bss generalizing acc with
  | nil => simp [sectrans_read_cb_loop]
  | cons b bs ih =>
    rcases hn : b.length + bs.flatten.length with _ | n
    · have hb : b = [] := List.length_eq_zero.mp (by omega)
      have hbs : bs.flatten.length = 0 := by omega
      simp [List.flatten_cons, hb, List.length_eq_zero.mp hbs,
        sectrans_read_cb_loop]
    · have hlen : (b :: bs).flatten.length = n + 1 := by
        simp only [List.flatten_cons, List.length_append]
        omega
      have hrec : n + 1 - b.length = bs.flatten.length := by omega
      rw [hlen, List.map_cons]
      conv_lhs => rw [sectrans_read_cb_loop]
      rw [if_neg (by decide), if_pos rfl, hrec, ih]
      simp [List.flatten_cons, List.append_assoc]

/-- C4: the engine's read callback pulls from the incoming-ciphertext source
until the requested count is met or the source reports non-success,
accumulating the copied bytes in order.  A fatal source error on the first
pull reports the engine-level failure -1; would-block with zero bytes copied
so far reports errSSLWouldBlock; a run of successful pulls meeting the
requested count exactly reports noErr with the chunks concatenated in order;
and a partial success followed by would-block reports errSSLWouldBlock
carrying the bytes accumulated across iterations. -/
theorem sectrans_read_cb_spec :
    (∀ (st : apr_status_t) (buf : List Nat)
        (rest : List (apr_status_t × List Nat)) (requested : Nat),
      0 < requested → SERF_BUCKET_READ_ERROR st = true →
      sectrans_read_cb ((st, buf) :: rest) requested
        = some (.errOther (-1), []))
  ∧ (∀ (rest : List (apr_status_t × List Nat)) (requested : Nat),
      0 < requested →
      sectrans_read_cb ((.eagain, []) :: rest) requested
        = some (.errSSLWouldBlock, []))
  ∧ (∀ bss : List (List Nat),
      sectrans_read_cb (bss.map fun b => (apr_status_t.success, b))
          bss.flatten.length
        = some (.noErr, bss.flatten))
  ∧ (∀ (b : List Nat) (rest : List (apr_status_t × List Nat))
        (requested : Nat), b.length < requested →
      sectrans_read_cb
          ((apr_status_t.success, b) :: (.eagain, []) :: rest) requested
        = some (.errSSLWouldBlock, b)) := by
  refine ⟨fun st buf rest requested hr herr => ?_,
    fun rest requested hr => ?_, fun bss => ?_,
    fun b rest requested hb => ?_⟩
  · obtain ⟨r, rfl⟩ := Nat.exists_eq_succ_of_ne_zero (Nat.pos_iff_ne_zero.mp hr)
    simp [sectrans_read_cb, sectrans_read_cb_loop, herr]
  · obtain ⟨r, rfl⟩ := Nat.exists_eq_succ_of_ne_zero (Nat.pos_iff_ne_zero.mp hr)
    simp [sectrans_read_cb, sectrans_read_cb_loop, SERF_BUCKET_READ_ERROR]
  · have h := sectrans_read_cb_loop_success bss []
    rw [List.nil_append] at h
    exact h
  · obtain ⟨r, rfl⟩ : ∃ r, requested = r + 1 :=
      ⟨requested - 1, by omega⟩
    rw [sectrans_read_cb]
    conv_lhs => rw [sectrans_read_cb_loop]
    rw [if_neg (by decide), if_pos rfl]
    obtain ⟨k, hk⟩ : ∃ k, r + 1 - b.length = k + 1 :=
      ⟨r - b.length, by omega⟩
    rw [hk]
    conv_lhs => rw [sectrans_read_cb_loop]
    rw [if_neg (by decide), if_neg (by decide)]
    simp

/-- C4, instantiated: fatal first pull; would-block with nothing copied;
two exact successful pulls; a partial pull then would-block. -/
theorem sectrans_read_cb_spec_witness :
    sectrans_read_cb [(.egeneral, [5])] 3 = some (.errOther (-1), [])
  ∧ sectrans_read_cb [(.eagain, [])] 3 = some (.errSSLWouldBlock, [])
  ∧ sectrans_read_cb
        ([[1, 2], [3]].map fun b => (apr_status_t.success, b))
        [[1, 2], [3]].flatten.length
      = some (.noErr, [[1, 2], [3]].flatten)
  ∧ sectrans_read_cb [(apr_status_t.success, [1]), (.eagain, [])] 3
      = some (.errSSLWouldBlock, [1]) :=
  ⟨sectrans_read_cb_spec.1 .egeneral [5] [] 3 (by decide) (by decide),
   sectrans_read_cb_spec.2.1 [] 3 (by decide),
   sectrans_read_cb_spec.2.2.1 [[1, 2], [3]],
   sectrans_read_cb_spec.2.2.2 [1] [] 3 (by decide)⟩

/-- The connected path of the encrypt read never changes the session
state. -/
theorem encrypt_read_connected_state (env : EncryptEnv) (requested : Nat)
    (c : sectrans_context_t) :
    (encrypt_read_connected env requested c).2.2.state = c.state := by
  simp only [encrypt_read_connected]
  repeat' split
  all_goals rfl

/-- C5: an encrypt-adapter read in the CONNECTED state with a nonempty
pending ciphertext buffer returns the queued bytes at once with the success
status — whichever of would-block or success the pending buffer's own read
reported — leaving the rest of the buffer queued; the result does not depend
on any engine oracle. -/
theorem encrypt_read_connected_pending_first (env : EncryptEnv)
    (requested : Nat) (c : sectrans_context_t)
    (hs : c.state = .CONNECTED) (hp : c.encrypt_pending ≠ [])
    (hr : 0 < requested) :
    serf_sectrans_encrypt_read env requested c
      = (.success, c.encrypt_pending.take requested,
         { c with encrypt_pending := c.encrypt_pending.drop requested }) := by
  have hni : ¬(c.state = .INIT ∨ c.state = .HANDSHAKE) := by
    rw [hs]
    decide
  have htake : c.encrypt_pending.take requested ≠ [] := by
    simp [List.take_eq_nil_iff, hp]
    omega
  unfold serf_sectrans_encrypt_read
  rw [if_neg hni]
  unfold encrypt_read_connected
  rw [pendingRead_ne_nil requested c.encrypt_pending hp]
  by_cases hd : (c.encrypt_pending.drop requested).isEmpty <;>
    simp [hd, SERF_BUCKET_READ_ERROR, htake]

/-- C5, instantiated at a connected context holding three pending bytes. -/
theorem encrypt_read_connected_pending_first_witness :
    serf_sectrans_encrypt_read confirmEncryptEnv 2
        { sectrans_init_context with
            state := .CONNECTED, encrypt_pending := [9, 8, 7] }
      = (.success, [9, 8, 7].take 2,
         { { sectrans_init_context with
               state := .CONNECTED, encrypt_pending := [9, 8, 7] } with
             encrypt_pending := [9, 8, 7].drop 2 }) :=
  encrypt_read_connected_pending_first confirmEncryptEnv 2
    { sectrans_init_context with
        state := .CONNECTED, encrypt_pending := [9, 8, 7] }
    rfl (by decide) (by decide)

/-- C6: an encrypt-adapter read in the CONNECTED state with an empty pending
ciphertext buffer, when the outgoing plaintext source reports would-block
with zero bytes, returns would-block with zero bytes, leaves the context
unchanged, and never invokes the engine's encrypt operation (the result is
the same for every SSLWrite oracle, which is universally quantified
here). -/
theorem encrypt_read_connected_empty_wouldblock (hsE : OSStatus)
    (hsV : ValidateEnv) (hsW : List Nat) (sw : OSStatus × List Nat)
    (requested : Nat) (c : sectrans_context_t)
    (hs : c.state = .CONNECTED) (hp : c.encrypt_pending = []) :
    serf_sectrans_encrypt_read
        { hsEngine := hsE, hsValidate := hsV, hsWritten := hsW,
          streamRead := (.eagain, []), sslWrite := sw } requested c
      = (.eagain, [], c) := by
  obtain ⟨rc, m, st, ep, dp, cb⟩ := c
  simp only at hs hp
  subst hs
  subst hp
  simp [serf_sectrans_encrypt_read, encrypt_read_connected, pendingRead_nil,
    SERF_BUCKET_READ_ERROR]

/-- C6, instantiated: a connected context with an empty buffer; the SSLWrite
oracle is deliberately nonzero to exhibit that it is not consulted. -/
theorem encrypt_read_connected_empty_wouldblock_witness :
    serf_sectrans_encrypt_read
        { hsEngine := .noErr, hsValidate := confirmValidateEnv,
          hsWritten := [], streamRead := (.eagain, []),
          sslWrite := (.errOther 7, [4, 4]) } 2
        { sectrans_init_context with state := .CONNECTED }
      = (.eagain, [], { sectrans_init_context with state := .CONNECTED }) :=
  encrypt_read_connected_empty_wouldblock .noErr confirmValidateEnv []
    (.errOther 7, [4, 4]) 2
    { sectrans_init_context with state := .CONNECTED } rfl rfl


/-- In INIT or HANDSHAKE, a read with a positive request either reaches
CONNECTED or stays in HANDSHAKE returning would-block, a fatal error, or
success with bytes. -/
theorem encrypt_read_handshake_cases (env : EncryptEnv) (requested : Nat)
    (c : sectrans_context_t)
    (hc : c.state = .INIT ∨ c.state = .HANDSHAKE) (hr : 0 < requested) :
    (serf_sectrans_encrypt_read env requested c).2.2.state = .CONNECTED
  ∨ ((serf_sectrans_encrypt_read env requested c).2.2.state = .HANDSHAKE
      ∧ ((serf_sectrans_encrypt_read env requested c).1 = .eagain
         ∨ SERF_BUCKET_READ_ERROR
             (serf_sectrans_encrypt_read env requested c).1 = true
         ∨ ((serf_sectrans_encrypt_read env requested c).1 = .success
            ∧ (serf_sectrans_encrypt_read env requested c).2.1 ≠ []))) := by
  obtain ⟨rc, m, st, ep, dp, cb⟩ := c
  unfold serf_sectrans_encrypt_read
  rw [if_pos hc]
  simp only
  have hpend : (pendingRead requested (ep ++ env.hsWritten)).1 = .eagain
      ∨ ((pendingRead requested (ep ++ env.hsWritten)).1 = .success
         ∧ (pendingRead requested (ep ++ env.hsWritten)).2.1 ≠ []) := by
    by_cases hb : ep ++ env.hsWritten = []
    · rw [hb, pendingRead_nil]
      exact Or.inl rfl
    · rcases pendingRead_fst requested (ep ++ env.hsWritten) with h | h
      · exact Or.inl h
      · exact Or.inr ⟨h, pendingRead_data_ne_nil requested _ hb hr⟩
  cases hds : do_handshake m cb
      { sslHandshakeStatus := env.hsEngine, validateEnv := env.hsValidate } <;>
    simp [encrypt_read_connected_state, SERF_BUCKET_READ_ERROR]
  all_goals rcases hpend with h | ⟨h, h2⟩ <;> simp [*]

/-- C9 (amended): the session state never moves backward along
INIT → HANDSHAKE → CONNECTED → CLOSING under an encrypt-adapter read, and a
read issued in INIT or HANDSHAKE either brings the state to CONNECTED or
leaves it in HANDSHAKE returning would-block, a fatal error, or success
carrying ciphertext bytes the handshake pushed into the pending buffer. -/
theorem encrypt_read_state_monotone (env : EncryptEnv) (requested : Nat)
    (c : sectrans_context_t) (hr : 0 < requested) :
    stateRank c.state
      ≤ stateRank (serf_sectrans_encrypt_read env requested c).2.2.state
  ∧ ((c.state = .INIT ∨ c.state = .HANDSHAKE) →
      ((serf_sectrans_encrypt_read env requested c).2.2.state = .CONNECTED
       ∨ ((serf_sectrans_encrypt_read env requested c).2.2.state
             = .HANDSHAKE
          ∧ ((serf_sectrans_encrypt_read env requested c).1 = .eagain
             ∨ SERF_BUCKET_READ_ERROR
                 (serf_sectrans_encrypt_read env requested c).1 = true
             ∨ ((serf_sectrans_encrypt_read env requested c).1 = .success
                ∧ (serf_sectrans_encrypt_read env requested c).2.1
                    ≠ []))))) := by
  constructor
  · by_cases hc : c.state = .INIT ∨ c.state = .HANDSHAKE
    · have hrank : stateRank c.state ≤ 1 := by
        rcases hc with h | h <;> rw [h] <;> decide
      have hst : (serf_sectrans_encrypt_read env requested c).2.2.state
            = .CONNECTED
          ∨ (serf_sectrans_encrypt_read env requested c).2.2.state
            = .HANDSHAKE := by
        rcases encrypt_read_handshake_cases env requested c hc hr with
          h | ⟨h, _⟩
        · exact Or.inl h
        · exact Or.inr h
      rcases hst with h | h <;> rw [h] <;>
        exact le_trans hrank (by decide)
    · have heq : serf_sectrans_encrypt_read env requested c
          = encrypt_read_connected env requested c := by
        unfold serf_sectrans_encrypt_read
        rw [if_neg hc]
      rw [heq, encrypt_read_connected_state]
  · exact fun hc => encrypt_read_handshake_cases env requested c hc hr

/-- C9 (amended), instantiated at the counterexample input: the state stays
HANDSHAKE and the read is a success carrying bytes. -/
theorem encrypt_read_state_monotone_witness :
    stateRank handshakeCtx.state
      ≤ stateRank (serf_sectrans_encrypt_read handshakeBytesEnv 2
          handshakeCtx).2.2.state
  ∧ ((handshakeCtx.state = .INIT ∨ handshakeCtx.state = .HANDSHAKE) →
      ((serf_sectrans_encrypt_read handshakeBytesEnv 2
          handshakeCtx).2.2.state = .CONNECTED
       ∨ ((serf_sectrans_encrypt_read handshakeBytesEnv 2
             handshakeCtx).2.2.state = .HANDSHAKE
          ∧ ((serf_sectrans_encrypt_read handshakeBytesEnv 2
                handshakeCtx).1 = .eagain
             ∨ SERF_BUCKET_READ_ERROR
                 (serf_sectrans_encrypt_read handshakeBytesEnv 2
                   handshakeCtx).1 = true
             ∨ ((serf_sectrans_encrypt_read handshakeBytesEnv 2
                   handshakeCtx).1 = .success
                ∧ (serf_sectrans_encrypt_read handshakeBytesEnv 2
                    handshakeCtx).2.1 ≠ []))))) :=
  encrypt_read_state_monotone handshakeBytesEnv 2 handshakeCtx (by decide)
